import Mathlib

/-!
Verification of the bring-up sequencer and event sink of
`mtb-example-anycloud-ota-mqtt` (`source/ota_task.c`).

The C code is embedded shallowly: each external capability call
(`cy_wcm_connect_ap`, `IotSdk_Init`, `IotNetworkSecureSockets_Init`,
`IotMqtt_Init`, `cy_ota_agent_start`, ...) is given its outcome by an
environment record, and every function of the file is translated into a
Lean function that returns the observable trace of events it performs
(capability calls, `printf` lines, `vTaskDelay` calls, `CY_ASSERT(0)`
halts, `vTaskSuspend`).
-/

namespace OtaMqtt

/-- Type `cy_rslt_t`: Cypress result code, a machine word; `0` is success. -/
abbrev cy_rslt_t := Nat

/-- Constant `CY_RSLT_SUCCESS` of the Cypress result API. -/
def CY_RSLT_SUCCESS : cy_rslt_t := 0

/-- Constant `IOT_NETWORK_SUCCESS`: success value of the secure-sockets init. -/
def IOT_NETWORK_SUCCESS : Nat := 0

/-- Constant `IOT_MQTT_SUCCESS`: success value of `IotMqtt_Init`. -/
def IOT_MQTT_SUCCESS : Nat := 0

/-- Macro `MAX_CONNECTION_RETRIES`, defined as `10u` in `ota_task.c`. -/
def MAX_CONNECTION_RETRIES : Nat := 10

/-- Macro `WIFI_CONN_RETRY_DELAY_MS`, defined as `500` in `ota_task.c`. -/
def WIFI_CONN_RETRY_DELAY_MS : Nat := 500

/-- Marker for the callback function pointer stored in the agent params
(`.cb_func = ota_callback` in `ota_task.c`). -/
inductive CallbackFn where
  | otaCallback
deriving DecidableEq

/-- Structure `cy_ota_agent_params_t`, keeping the fields `ota_task.c` sets. -/
structure cy_ota_agent_params_t where
  cb_func : CallbackFn
  reboot_upon_completion : Nat
deriving DecidableEq

/-- The global `ota_agent_params` of `ota_task.c`: the event sink
`ota_callback` is installed as `cb_func`, `reboot_upon_completion = 1`. -/
def ota_agent_params : cy_ota_agent_params_t :=
  ⟨CallbackFn.otaCallback, 1⟩

/-- Observable steps of the bring-up task, in execution order. -/
inductive Event where
  | cyWcmInitCall
  | connectApCall (attempt : Nat)
  | printLine (s : String)
  | delayMs (d : Nat)
  | iotSdkInitCall
  | secureSocketsInitCall
  | mqttInitCall
  | agentStartCall (p : cy_ota_agent_params_t)
  | assertFail
  | taskSuspend
deriving DecidableEq

/-- The `printf` after a successful `cy_wcm_connect_ap`. -/
def wifiConnectedMsg : String :=
  "Successfully connected to Wi-Fi network.\n"

/-- The `printf` after a failed `cy_wcm_connect_ap` (carries the error
code and the retry delay, as the C format string does). -/
def wifiFailMsg (r d : Nat) : String :=
  "Connection to Wi-Fi network failed with error code " ++ toString r ++
    ". Retrying in " ++ toString d ++ " ms...\n"

/-- The `printf` after the retry loop is exhausted. -/
def exceededMsg : String :=
  "Exceeded maximum Wi-Fi connection attempts\n"

/-- Diagnostic printed by `ota_task` when `connect_to_wifi_ap` fails. -/
def wifiApFailedMsg : String :=
  "\n Failed to connect to Wi-FI AP.\n"

/-- Diagnostic printed by `ota_task` when `IotSdk_Init` fails. -/
def iotSdkFailedMsg : String :=
  "\n IotSdk_Init Failed.\n"

/-- Diagnostic printed when `IotNetworkSecureSockets_Init` fails. -/
def socketsFailedMsg : String :=
  "\n IotNetworkSecureSockets_Init Failed.\n"

/-- Diagnostic printed when `IotMqtt_Init` fails. -/
def mqttFailedMsg : String :=
  "\n IotMqtt_Init Failed.\n"

/-- Diagnostic printed when `cy_ota_agent_start` fails. -/
def agentFailedMsg : String :=
  "\n Initializing and starting the OTA agent failed.\n"

/-- Outcomes of the external capabilities consumed by `ota_task.c`:
`connect k` is the result of the `k`-th `cy_wcm_connect_ap` call
(0-based), the rest are the results of the one-shot init calls. -/
structure Env where
  wcmInitResult : cy_rslt_t
  connect : Nat → cy_rslt_t
  iotSdkInitOk : Bool
  socketsInitResult : Nat
  mqttInitResult : Nat
  agentStartResult : cy_rslt_t

/-- The `for(conn_retries = 0; conn_retries < MAX_CONNECTION_RETRIES; ...)`
loop of `connect_to_wifi_ap`, with `n` iterations left, `i` the current
`conn_retries` value and `last` the current value of `result`.  Each
iteration calls `cy_wcm_connect_ap`; on success it prints and returns,
on failure it prints and delays `D` ms.  Falling out of the loop prints
the exhaustion line and returns the last `result`. -/
def wcmConnectLoop (connect : Nat → cy_rslt_t) (D : Nat) :
    Nat → Nat → cy_rslt_t → cy_rslt_t × List Event
  | 0, _, last => (last, [Event.printLine exceededMsg])
  | n + 1, i, _ =>
    let result := connect i
    if result = CY_RSLT_SUCCESS then
      (result, [Event.connectApCall i, Event.printLine wifiConnectedMsg])
    else
      let rest := wcmConnectLoop connect D n (i + 1) result
      (rest.1, Event.connectApCall i ::
        Event.printLine (wifiFailMsg result D) :: Event.delayMs D :: rest.2)

/-- Function `connect_to_wifi_ap` of `ota_task.c`, generalized over the retry
bound `N` and the retry delay `D` (the compiled constants are
`MAX_CONNECTION_RETRIES` and `WIFI_CONN_RETRY_DELAY_MS`).  It calls
`cy_wcm_init` and *discards its result* — `wcmInitResult` is ignored,
exactly as the C discards the `cy_rslt_t` of `cy_wcm_init` — then runs
the retry loop from `conn_retries = 0`. -/
def connect_to_wifi_ap_gen (N D : Nat) (wcmInitResult : cy_rslt_t)
    (connect : Nat → cy_rslt_t) : cy_rslt_t × List Event :=
  let loop := wcmConnectLoop connect D N 0 CY_RSLT_SUCCESS
  (loop.1, Event.cyWcmInitCall :: loop.2)

/-- Function `connect_to_wifi_ap` with the compiled-in constants. -/
def connect_to_wifi_ap (env : Env) : cy_rslt_t × List Event :=
  connect_to_wifi_ap_gen MAX_CONNECTION_RETRIES WIFI_CONN_RETRY_DELAY_MS
    env.wcmInitResult env.connect

/-- The `cy_rslt_t` that `connect_to_wifi_ap` returns to `ota_task`. -/
def wifiResult (N D : Nat) (env : Env) : cy_rslt_t :=
  (connect_to_wifi_ap_gen N D env.wcmInitResult env.connect).1

/-- Rest of `ota_task` once `cy_ota_agent_start` has been called: check
its result (failure prints and asserts), else `vTaskSuspend(NULL)`. -/
def afterAgentStart (env : Env) : List Event :=
  if env.agentStartResult ≠ CY_RSLT_SUCCESS then
    [Event.printLine agentFailedMsg, Event.assertFail]
  else
    [Event.taskSuspend]

/-- Rest of `ota_task` once `IotMqtt_Init` has been called: check its
result, else call `cy_ota_agent_start` with `ota_agent_params`. -/
def afterMqttInit (env : Env) : List Event :=
  if env.mqttInitResult ≠ IOT_MQTT_SUCCESS then
    [Event.printLine mqttFailedMsg, Event.assertFail]
  else
    Event.agentStartCall ota_agent_params :: afterAgentStart env

/-- Rest of `ota_task` once `IotNetworkSecureSockets_Init` has been
called: check its result, else call `IotMqtt_Init`. -/
def afterSocketsInit (env : Env) : List Event :=
  if env.socketsInitResult ≠ IOT_NETWORK_SUCCESS then
    [Event.printLine socketsFailedMsg, Event.assertFail]
  else
    Event.mqttInitCall :: afterMqttInit env

/-- Rest of `ota_task` once `IotSdk_Init` has been called: check its
result, else call `IotNetworkSecureSockets_Init`. -/
def afterSdkInit (env : Env) : List Event :=
  if env.iotSdkInitOk = false then
    [Event.printLine iotSdkFailedMsg, Event.assertFail]
  else
    Event.secureSocketsInitCall :: afterSocketsInit env

/-- Function `ota_task` of `ota_task.c`, generalized over the Wi-Fi retry bound
and delay: connect to Wi-Fi, then `IotSdk_Init`, then
`IotNetworkSecureSockets_Init`, then `IotMqtt_Init`, then
`cy_ota_agent_start`; each failure prints its diagnostic and hits
`CY_ASSERT(0)`; full success ends in `vTaskSuspend(NULL)`. -/
def ota_task_gen (N D : Nat) (env : Env) : List Event :=
  let wifi := connect_to_wifi_ap_gen N D env.wcmInitResult env.connect
  wifi.2 ++
    if wifi.1 ≠ CY_RSLT_SUCCESS then
      [Event.printLine wifiApFailedMsg, Event.assertFail]
    else
      Event.iotSdkInitCall :: afterSdkInit env

/-- Function `ota_task` with the compiled-in constants. -/
def ota_task (env : Env) : List Event :=
  ota_task_gen MAX_CONNECTION_RETRIES WIFI_CONN_RETRY_DELAY_MS env

/-- The sequencer states of the spec (§4.1). -/
inductive SeqState where
  | INIT
  | AGENT_ACTIVE
  | HALTED
deriving DecidableEq

/-- Final sequencer state read off a trace: a `CY_ASSERT(0)` means the
device halted; otherwise reaching `vTaskSuspend` means the agent was
activated and the bring-up task parked itself. -/
def finalState (tr : List Event) : SeqState :=
  if Event.assertFail ∈ tr then SeqState.HALTED
  else if Event.taskSuspend ∈ tr then SeqState.AGENT_ACTIVE
  else SeqState.INIT

/-- Most recent `printf` line before the first `CY_ASSERT(0)` of the
trace (the diagnostic the halt is reported with), if any. -/
def diagBefore : List Event → Option String → Option String
  | [], _ => none
  | Event.assertFail :: _, lastP => lastP
  | Event.printLine s :: rest, _ => diagBefore rest (some s)
  | _ :: rest, lastP => diagBefore rest lastP

/-- The diagnostic accompanying the halt of a trace. -/
def haltDiagnostic (tr : List Event) : Option String :=
  diagBefore tr none

/-- Number of `cy_wcm_connect_ap` calls in a trace. -/
def countAttempts (tr : List Event) : Nat :=
  tr.countP fun e =>
    match e with
    | Event.connectApCall _ => true
    | _ => false

/-- Returns `true` on every event except a connection attempt. -/
def notAttempt (e : Event) : Bool :=
  match e with
  | Event.connectApCall _ => false
  | _ => true

/-- Accumulate the delay milliseconds elapsed since the previous
connection attempt, emitting the total at each subsequent attempt. -/
def gapsAux : List Event → Nat → List Nat
  | [], _ => []
  | Event.connectApCall _ :: rest, acc => acc :: gapsAux rest 0
  | Event.delayMs d :: rest, acc => gapsAux rest (acc + d)
  | _ :: rest, acc => gapsAux rest acc

/-- For each pair of consecutive connection attempts of a trace, the
total delay executed between them. -/
def delayGaps (tr : List Event) : List Nat :=
  match tr.dropWhile notAttempt with
  | [] => []
  | _ :: rest => gapsAux rest 0

/-- Events a run of the Wi-Fi connect loop can emit. -/
def isWifiEvent (e : Event) : Bool :=
  match e with
  | Event.cyWcmInitCall => true
  | Event.connectApCall _ => true
  | Event.printLine _ => true
  | Event.delayMs _ => true
  | _ => false

/-- The trace of a run of the connect loop in which the attempts at
indices `i, i+1, ..., i+n-1` all fail. -/
def failTrace (connect : Nat → cy_rslt_t) (D : Nat) : Nat → Nat → List Event
  | _, 0 => []
  | i, n + 1 =>
    Event.connectApCall i :: Event.printLine (wifiFailMsg (connect i) D) ::
      Event.delayMs D :: failTrace connect D (i + 1) n

/-- A fatal condition of `ota_task` (§7 of the spec): join exhaustion or
any init-stage failure. -/
def fatalCondition (N D : Nat) (env : Env) : Prop :=
  wifiResult N D env ≠ CY_RSLT_SUCCESS ∨ env.iotSdkInitOk = false ∨
    env.socketsInitResult ≠ IOT_NETWORK_SUCCESS ∨
    env.mqttInitResult ≠ IOT_MQTT_SUCCESS ∨
    env.agentStartResult ≠ CY_RSLT_SUCCESS

/-- Type `cy_ota_context_ptr`: the opaque agent handle, identified by value. -/
abbrev cy_ota_context_ptr := Nat

/-- Type `cy_ota_cb_reason_t`: the callback reason code of the agent. -/
abbrev cy_ota_cb_reason_t := Nat

/-- Type `cy_ota_agent_state_t`: the state code of the agent. -/
abbrev cy_ota_agent_state_t := Nat

/-- The `cb_arg` handed to the sink: in `ota_task.c` it is
`&ota_context`, a cell holding a `cy_ota_context_ptr` that the callback
dereferences. -/
structure OpaqueArg where
  ota_context : cy_ota_context_ptr

/-- The agent-owned state read by the accessor calls of the sink: the state
snapshot behind each handle and the last recorded error. -/
structure AgentWorld where
  agentState : cy_ota_context_ptr → cy_ota_agent_state_t
  lastError : cy_rslt_t

/-- Accessor `cy_ota_get_state`: read-only state query on the agent. -/
def cy_ota_get_state (w : AgentWorld) (ctx : cy_ota_context_ptr) :
    cy_ota_agent_state_t :=
  w.agentState ctx

/-- Accessor `cy_ota_last_error`: the last recorded error code of the agent. -/
def cy_ota_last_error (w : AgentWorld) : cy_rslt_t :=
  w.lastError

/-- Modelled from the spec: the update-agent collaborator
lookup `cy_ota_get_callback_reason_string` (its source is not part of
this repository).  §3/§4.2: known reason variants map to descriptive
text, any other code falls back to an "unknown" descriptor. -/
def cy_ota_get_callback_reason_string (reason : cy_ota_cb_reason_t) :
    String :=
  if reason = 0 then ("download-started")
  else if reason = 1 then ("download-progress")
  else if reason = 2 then ("validation")
  else if reason = 3 then ("reboot-pending")
  else if reason = 4 then ("error")
  else ("unknown reason")

/-- Modelled from the spec: the update-agent collaborator
lookup `cy_ota_get_state_string` (its source is not part of this
repository).  Known phases map to descriptive text, any other code
falls back to an "unknown" descriptor. -/
def cy_ota_get_state_string (st : cy_ota_agent_state_t) : String :=
  if st = 0 then ("initializing")
  else if st = 1 then ("connecting")
  else if st = 2 then ("downloading")
  else if st = 3 then ("verifying")
  else if st = 4 then ("rebooting")
  else ("unknown state")

/-- Modelled from the spec: the update-agent collaborator
lookup `cy_ota_get_error_string` (its source is not part of this
repository).  Unmapped error codes degrade to an "unknown" string. -/
def cy_ota_get_error_string (err : cy_rslt_t) : String :=
  if err = 0 then ("no error")
  else ("unknown error")

/-- Function `ota_callback` of `ota_task.c`: dereference `cb_arg` to the handle,
query the agent state through `cy_ota_get_state`, and print one line
with the handle, the reason code and its text, the value, the state
code and its text, and the text of `cy_ota_last_error()`.  The returned
`AgentWorld` is the world it leaves behind: the function only reads. -/
def ota_callback (w : AgentWorld) (reason : cy_ota_cb_reason_t)
    (value : Nat) (cb_arg : OpaqueArg) : AgentWorld × List Event :=
  let ctx := cb_arg.ota_context
  let ota_state := cy_ota_get_state w ctx
  (w, [Event.printLine
    ("Application OTA callback ctx:" ++ toString ctx ++
      " reason:" ++ toString reason ++ " " ++
      cy_ota_get_callback_reason_string reason ++
      " value:" ++ toString value ++
      " state:" ++ toString ota_state ++ " " ++
      cy_ota_get_state_string ota_state ++ " " ++
      cy_ota_get_error_string (cy_ota_last_error w) ++ "\n")])

/-- Predicate: `s` contains `m` as a contiguous substring. -/
def containsStr (s m : String) : Prop :=
  ∃ l r : String, s = l ++ m ++ r

/-- Test environment: every connection attempt fails with code 7, every
other capability succeeds. -/
def envAllFail : Env :=
  ⟨0, fun _ => 7, true, 0, 0, 0⟩

/-- Test environment: attempts 0 and 1 fail with code 9, attempt 2
succeeds; every other capability succeeds. -/
def envThirdOk : Env :=
  ⟨0, fun k => if k < 2 then 9 else 0, true, 0, 0, 0⟩

/-- Test environment: every capability succeeds at once. -/
def envAllOk : Env :=
  ⟨0, fun _ => 0, true, 0, 0, 0⟩

/-- Test environment: `cy_wcm_init` reports error 5, everything else
succeeds. -/
def envWcmInitFails : Env :=
  ⟨5, fun _ => 0, true, 0, 0, 0⟩

/-- When every attempt fails, the connect loop runs all `n` remaining
iterations, its trace is `failTrace` followed by the exhaustion line,
and it returns the result of the final attempt. -/
theorem wcmConnectLoop_allFail (connect : Nat → cy_rslt_t) (D : Nat)
    (hfail : ∀ k, connect k ≠ CY_RSLT_SUCCESS) :
    ∀ (n i : Nat) (last : cy_rslt_t),
      wcmConnectLoop connect D n i last =
        (if n = 0 then last else connect (i + (n - 1)),
          failTrace connect D i n ++ [Event.printLine exceededMsg]) := by
  intro n
  induction n with
  | zero =>
    intro i last
    simp [wcmConnectLoop, failTrace]
  | succ m ih =>
    intro i last
    simp only [wcmConnectLoop]
    rw [if_neg (hfail i), ih (i + 1) (connect i)]
    have harg : (if m = 0 then connect i else connect (i + 1 + (m - 1))) =
        connect (i + (m + 1 - 1)) := by
      rcases m with _ | k
      · simp
      · rw [if_neg (Nat.succ_ne_zero k)]
        congr 1
        omega
    simp [failTrace, harg]

/-- Every event of a connect-loop trace is a Wi-Fi event. -/
theorem wcmConnectLoop_events (connect : Nat → cy_rslt_t) (D : Nat) :
    ∀ (n i : Nat) (last : cy_rslt_t),
      ∀ e ∈ (wcmConnectLoop connect D n i last).2, isWifiEvent e = true := by
  intro n
  induction n with
  | zero =>
    intro i last e he
    simp [wcmConnectLoop] at he
    simp [he, isWifiEvent]
  | succ m ih =>
    intro i last e he
    simp only [wcmConnectLoop] at he
    by_cases hc : connect i = CY_RSLT_SUCCESS
    · rw [if_pos hc] at he
      simp at he
      rcases he with he | he <;> simp [he, isWifiEvent]
    · rw [if_neg hc] at he
      simp at he
      rcases he with he | he | he | he
      · simp [he, isWifiEvent]
      · simp [he, isWifiEvent]
      · simp [he, isWifiEvent]
      · exact ih (i + 1) (connect i) e he

/-- Non-Wi-Fi events do not occur in a `connect_to_wifi_ap` trace. -/
theorem not_mem_wifi_trace (N D : Nat) (r : cy_rslt_t)
    (connect : Nat → cy_rslt_t) (e : Event) (he : isWifiEvent e = false) :
    e ∉ (connect_to_wifi_ap_gen N D r connect).2 := by
  intro hmem
  simp only [connect_to_wifi_ap_gen, List.mem_cons] at hmem
  rcases hmem with hmem | hmem
  · rw [hmem] at he
    simp [isWifiEvent] at he
  · have := wcmConnectLoop_events connect D N 0 CY_RSLT_SUCCESS e hmem
    rw [he] at this
    exact Bool.false_ne_true this

/-- When attempt `m` is the first to succeed, the loop stops there with
the success result, after replaying the failures before it. -/
theorem wcmConnectLoop_success (connect : Nat → cy_rslt_t) (D : Nat) (m : Nat)
    (hsucc : connect m = CY_RSLT_SUCCESS) :
    ∀ (n i : Nat) (last : cy_rslt_t), i ≤ m → m < i + n →
      (∀ j, i ≤ j → j < m → connect j ≠ CY_RSLT_SUCCESS) →
      wcmConnectLoop connect D n i last =
        (CY_RSLT_SUCCESS, failTrace connect D i (m - i) ++
          [Event.connectApCall m, Event.printLine wifiConnectedMsg]) := by
  intro n
  induction n with
  | zero =>
    intro i last h1 h2 _
    omega
  | succ k ih =>
    intro i last h1 h2 hbefore
    by_cases hi : i = m
    · subst hi
      simp only [wcmConnectLoop]
      rw [if_pos hsucc]
      simp [failTrace, hsucc]
    · have hilt : i < m := lt_of_le_of_ne h1 hi
      have hfi : connect i ≠ CY_RSLT_SUCCESS := hbefore i le_rfl hilt
      simp only [wcmConnectLoop]
      rw [if_neg hfi,
        ih (i + 1) (connect i) hilt (by omega)
          (fun j hj1 hj2 => hbefore j (by omega) hj2)]
      have hmi : m - i = (m - (i + 1)) + 1 := by omega
      rw [hmi]
      simp [failTrace]

/-- Number of connection attempts recorded by `failTrace`. -/
theorem countAttempts_failTrace (connect : Nat → cy_rslt_t) (D : Nat) :
    ∀ (n i : Nat), countAttempts (failTrace connect D i n) = n := by
  intro n
  induction n with
  | zero =>
    intro i
    simp [failTrace, countAttempts]
  | succ m ih =>
    intro i
    have := ih (i + 1)
    simp only [countAttempts] at this ⊢
    simp [failTrace, List.countP_cons, this]

/-- Each failed attempt of `failTrace` contributes one delay of `D`. -/
theorem count_delay_failTrace (connect : Nat → cy_rslt_t) (D : Nat) :
    ∀ (n i : Nat), List.count (Event.delayMs D) (failTrace connect D i n) = n := by
  intro n
  induction n with
  | zero =>
    intro i
    simp [failTrace]
  | succ m ih =>
    intro i
    simp [failTrace, List.count_cons, ih (i + 1)]

/-- Every event of `failTrace` is a Wi-Fi event. -/
theorem failTrace_events (connect : Nat → cy_rslt_t) (D : Nat) :
    ∀ (n i : Nat), ∀ e ∈ failTrace connect D i n, isWifiEvent e = true := by
  intro n
  induction n with
  | zero =>
    intro i e he
    simp [failTrace] at he
  | succ m ih =>
    intro i e he
    simp only [failTrace, List.mem_cons] at he
    rcases he with he | he | he | he
    · simp [he, isWifiEvent]
    · simp [he, isWifiEvent]
    · simp [he, isWifiEvent]
    · exact ih (i + 1) e he

/-- A nonempty `failTrace` ends with its retry delay. -/
theorem failTrace_ends_delay (connect : Nat → cy_rslt_t) (D : Nat) :
    ∀ (n i : Nat), ∃ p, failTrace connect D i (n + 1) = p ++ [Event.delayMs D] := by
  intro n
  induction n with
  | zero =>
    intro i
    exact ⟨[Event.connectApCall i,
      Event.printLine (wifiFailMsg (connect i) D)], by simp [failTrace]⟩
  | succ m ih =>
    intro i
    obtain ⟨p, hp⟩ := ih (i + 1)
    refine ⟨Event.connectApCall i ::
      Event.printLine (wifiFailMsg (connect i) D) :: Event.delayMs D :: p, ?_⟩
    have hstep : failTrace connect D i (m + 1 + 1) =
        Event.connectApCall i :: Event.printLine (wifiFailMsg (connect i) D) ::
          Event.delayMs D :: failTrace connect D (i + 1) (m + 1) := rfl
    rw [hstep, hp]
    simp

/-- Lemma: `gapsAux` emits nothing on an attempt-free trace. -/
theorem gapsAux_attemptFree :
    ∀ (l : List Event), (∀ e ∈ l, notAttempt e = true) →
      ∀ acc, gapsAux l acc = [] := by
  intro l
  induction l with
  | nil =>
    intro _ acc
    simp [gapsAux]
  | cons a rest ih =>
    intro h acc
    have ha := h a (List.mem_cons_self a rest)
    have hrest := fun e he => h e (List.mem_cons_of_mem a he)
    cases a with
    | connectApCall k => simp [notAttempt] at ha
    | cyWcmInitCall => simpa [gapsAux] using ih hrest acc
    | printLine s => simpa [gapsAux] using ih hrest acc
    | delayMs d => simpa [gapsAux] using ih hrest (acc + d)
    | iotSdkInitCall => simpa [gapsAux] using ih hrest acc
    | secureSocketsInitCall => simpa [gapsAux] using ih hrest acc
    | mqttInitCall => simpa [gapsAux] using ih hrest acc
    | agentStartCall p => simpa [gapsAux] using ih hrest acc
    | assertFail => simpa [gapsAux] using ih hrest acc
    | taskSuspend => simpa [gapsAux] using ih hrest acc

/-- Gap totals over a `failTrace` followed by an attempt-free tail:
every gap between consecutive attempts is exactly one delay of `D`. -/
theorem gapsAux_failTrace (connect : Nat → cy_rslt_t) (D : Nat)
    (tail : List Event) (htail : ∀ e ∈ tail, notAttempt e = true) :
    ∀ (n i acc : Nat), gapsAux (failTrace connect D i n ++ tail) acc =
      if n = 0 then [] else acc :: List.replicate (n - 1) D := by
  intro n
  induction n with
  | zero =>
    intro i acc
    simp [failTrace, gapsAux_attemptFree tail htail]
  | succ m ih =>
    intro i acc
    simp only [failTrace, List.cons_append, gapsAux, List.append_eq]
    rw [ih (i + 1) (0 + D)]
    rcases m with _ | k
    · simp
    · simp [List.replicate_succ]

/-- An attempt-free trace is dropped whole by `dropWhile notAttempt`. -/
theorem dropWhile_attemptFree (l : List Event)
    (h : ∀ e ∈ l, notAttempt e = true) :
    l.dropWhile notAttempt = [] := by
  induction l with
  | nil => rfl
  | cons a rest ih =>
    rw [List.dropWhile_cons, if_pos (h a (List.mem_cons_self a rest))]
    exact ih fun e he => h e (List.mem_cons_of_mem a he)

/-- Delay gaps of a full all-fail Wi-Fi trace (with any attempt-free
continuation): `n` attempts leave `n - 1` gaps, every one equal to `D`. -/
theorem delayGaps_allFail (connect : Nat → cy_rslt_t) (D : Nat)
    (tail : List Event) (htail : ∀ e ∈ tail, notAttempt e = true) (n : Nat) :
    delayGaps (Event.cyWcmInitCall :: (failTrace connect D 0 n ++ tail)) =
      List.replicate (n - 1) D := by
  rcases n with _ | m
  · simp [delayGaps, failTrace, List.dropWhile_cons, notAttempt,
      dropWhile_attemptFree tail htail]
  · simp [delayGaps, failTrace, List.dropWhile_cons, notAttempt, gapsAux]
    rw [gapsAux_failTrace connect D tail htail m 1 D]
    rcases m with _ | k
    · simp
    · simp [List.replicate_succ]

/-- The most recent diagnostic before a halt appended after an
assert-free prefix is the line printed right before `CY_ASSERT(0)`. -/
theorem diagBefore_append (d : String) (rest : List Event) :
    ∀ (l : List Event), Event.assertFail ∉ l → ∀ acc,
      diagBefore (l ++ Event.printLine d :: Event.assertFail :: rest) acc =
        some d := by
  intro l
  induction l with
  | nil =>
    intro _ acc
    simp [diagBefore]
  | cons a t ih =>
    intro h acc
    have ha : a ≠ Event.assertFail := fun hh => h (hh ▸ List.mem_cons_self a t)
    have ht : Event.assertFail ∉ t := fun hh => h (List.mem_cons_of_mem a hh)
    cases a with
    | assertFail => exact absurd rfl ha
    | printLine s => simpa [diagBefore] using ih ht (some s)
    | cyWcmInitCall => simpa [diagBefore] using ih ht acc
    | connectApCall k => simpa [diagBefore] using ih ht acc
    | delayMs dd => simpa [diagBefore] using ih ht acc
    | iotSdkInitCall => simpa [diagBefore] using ih ht acc
    | secureSocketsInitCall => simpa [diagBefore] using ih ht acc
    | mqttInitCall => simpa [diagBefore] using ih ht acc
    | agentStartCall p => simpa [diagBefore] using ih ht acc
    | taskSuspend => simpa [diagBefore] using ih ht acc

/-- Packaging lemma: a trace that is an assert-free prefix followed by
one diagnostic line and `CY_ASSERT(0)` halts with exactly one assert,
no suspension, and final state `HALTED`. -/
theorem halted_conclusions (tr w mid : List Event) (d : String)
    (htr : tr = w ++ (mid ++ [Event.printLine d, Event.assertFail]))
    (hwa : Event.assertFail ∉ w) (hma : Event.assertFail ∉ mid)
    (hws : Event.taskSuspend ∉ w) (hms : Event.taskSuspend ∉ mid) :
    (∃ pre dd, tr = pre ++ [Event.printLine dd, Event.assertFail] ∧
      Event.assertFail ∉ pre) ∧
    List.count Event.assertFail tr = 1 ∧
    Event.taskSuspend ∉ tr ∧
    finalState tr = SeqState.HALTED := by
  subst htr
  refine ⟨⟨w ++ mid, d, by simp, by simp [List.mem_append, hwa, hma]⟩, ?_, ?_, ?_⟩
  · rw [show w ++ (mid ++ [Event.printLine d, Event.assertFail]) =
      (w ++ mid) ++ [Event.printLine d, Event.assertFail] by simp]
    rw [List.count_append]
    rw [List.count_eq_zero.mpr (by simp [List.mem_append, hwa, hma])]
    simp
  · simp [List.mem_append, hws, hms]
  · simp [finalState, List.mem_append]

/-- C8: the compiled-in configuration fixes the retry bound at 10 and
the retry delay at 500 ms, and satisfies the `BringUpConfig` invariant
(retry count positive, delay nonnegative). -/
theorem claim_C8 :
    MAX_CONNECTION_RETRIES = 10 ∧ WIFI_CONN_RETRY_DELAY_MS = 500 ∧
    0 < MAX_CONNECTION_RETRIES ∧ 0 ≤ WIFI_CONN_RETRY_DELAY_MS := by
  decide

/-- C9: the result of `cy_wcm_init` is discarded — `connect_to_wifi_ap`
and the whole of `ota_task` behave identically for every init outcome
`r`, connection attempts are made regardless, and a `cy_wcm_init`
failure by itself never changes the final state (so never halts). -/
theorem claim_C9 (N D : Nat) (hN : 0 < N) (r : cy_rslt_t) (env : Env) :
    connect_to_wifi_ap_gen N D r env.connect =
      connect_to_wifi_ap_gen N D CY_RSLT_SUCCESS env.connect ∧
    Event.connectApCall 0 ∈ (connect_to_wifi_ap_gen N D r env.connect).2 ∧
    ota_task_gen N D
        ⟨r, env.connect, env.iotSdkInitOk, env.socketsInitResult,
          env.mqttInitResult, env.agentStartResult⟩ =
      ota_task_gen N D env ∧
    finalState (ota_task_gen N D
        ⟨r, env.connect, env.iotSdkInitOk, env.socketsInitResult,
          env.mqttInitResult, env.agentStartResult⟩) =
      finalState (ota_task_gen N D env) := by
  refine ⟨rfl, ?_, rfl, rfl⟩
  rcases N with _ | n
  · omega
  · by_cases hc : env.connect 0 = CY_RSLT_SUCCESS <;>
      simp [connect_to_wifi_ap_gen, wcmConnectLoop, hc]

/-- Witness for C9 at the compiled-in bound, a failing `cy_wcm_init`
(code 5) and an otherwise all-success environment. -/
theorem claim_C9_witness :
    connect_to_wifi_ap_gen 10 500 5 envAllOk.connect =
      connect_to_wifi_ap_gen 10 500 CY_RSLT_SUCCESS envAllOk.connect ∧
    Event.connectApCall 0 ∈ (connect_to_wifi_ap_gen 10 500 5 envAllOk.connect).2 ∧
    ota_task_gen 10 500
        ⟨5, envAllOk.connect, envAllOk.iotSdkInitOk, envAllOk.socketsInitResult,
          envAllOk.mqttInitResult, envAllOk.agentStartResult⟩ =
      ota_task_gen 10 500 envAllOk ∧
    finalState (ota_task_gen 10 500
        ⟨5, envAllOk.connect, envAllOk.iotSdkInitOk, envAllOk.socketsInitResult,
          envAllOk.mqttInitResult, envAllOk.agentStartResult⟩) =
      finalState (ota_task_gen 10 500 envAllOk) :=
  claim_C9 10 500 (by decide) 5 envAllOk

/-- C10: when every attempt fails, `connect_to_wifi_ap` returns exactly
the error code of the final `cy_wcm_connect_ap` call (there is no
distinct retries-exhausted value), and the fixed delay runs after every
failed attempt — including the last one, right before the return. -/
theorem claim_C10 (N D : Nat) (env : Env) (hN : 0 < N)
    (hfail : ∀ k, env.connect k ≠ CY_RSLT_SUCCESS) :
    wifiResult N D env = env.connect (N - 1) ∧
    List.count (Event.delayMs D)
      (connect_to_wifi_ap_gen N D env.wcmInitResult env.connect).2 = N ∧
    ∃ pre, (connect_to_wifi_ap_gen N D env.wcmInitResult env.connect).2 =
      pre ++ [Event.delayMs D, Event.printLine exceededMsg] := by
  have hloop := wcmConnectLoop_allFail env.connect D hfail N 0 CY_RSLT_SUCCESS
  have hN0 : N ≠ 0 := Nat.pos_iff_ne_zero.mp hN
  refine ⟨?_, ?_, ?_⟩
  · simp [wifiResult, connect_to_wifi_ap_gen, hloop, hN0]
  · simp [connect_to_wifi_ap_gen, hloop, List.count_append, List.count_cons,
      count_delay_failTrace env.connect D N 0]
  · obtain ⟨p, hp⟩ := failTrace_ends_delay env.connect D (N - 1) 0
    have hn1 : N - 1 + 1 = N := by omega
    rw [hn1] at hp
    refine ⟨Event.cyWcmInitCall :: p, ?_⟩
    simp [connect_to_wifi_ap_gen, hloop, hp]

/-- Witness for C10 at the compiled-in bound with every attempt failing
with code 7. -/
theorem claim_C10_witness :
    wifiResult 10 500 envAllFail = envAllFail.connect (10 - 1) ∧
    List.count (Event.delayMs 500)
      (connect_to_wifi_ap_gen 10 500 envAllFail.wcmInitResult
        envAllFail.connect).2 = 10 ∧
    ∃ pre, (connect_to_wifi_ap_gen 10 500 envAllFail.wcmInitResult
        envAllFail.connect).2 =
      pre ++ [Event.delayMs 500, Event.printLine exceededMsg] :=
  claim_C10 10 500 envAllFail (by decide) (fun k => by simp [envAllFail, CY_RSLT_SUCCESS])

/-- C1: for every retry bound `N > 0` and delay `D`, if every
`cy_wcm_connect_ap` attempt fails, `connect_to_wifi_ap` makes exactly
`N` attempts, consecutive attempts are separated by a delay of (at
least) `D`, the join-exhaustion line is printed, and the sequencer ends
in `HALTED` with the Wi-Fi failure line as its halt diagnostic. -/
theorem claim_C1 (N D : Nat) (env : Env) (hN : 0 < N)
    (hfail : ∀ k, env.connect k ≠ CY_RSLT_SUCCESS) :
    countAttempts (ota_task_gen N D env) = N ∧
    delayGaps (ota_task_gen N D env) = List.replicate (N - 1) D ∧
    (∀ g ∈ delayGaps (ota_task_gen N D env), D ≤ g) ∧
    Event.printLine exceededMsg ∈ ota_task_gen N D env ∧
    finalState (ota_task_gen N D env) = SeqState.HALTED ∧
    haltDiagnostic (ota_task_gen N D env) = some wifiApFailedMsg := by
  have hloop := wcmConnectLoop_allFail env.connect D hfail N 0 CY_RSLT_SUCCESS
  have hN0 : N ≠ 0 := Nat.pos_iff_ne_zero.mp hN
  have htask : ota_task_gen N D env = Event.cyWcmInitCall ::
      (failTrace env.connect D 0 N ++
        [Event.printLine exceededMsg, Event.printLine wifiApFailedMsg,
          Event.assertFail]) := by
    simp [ota_task_gen, connect_to_wifi_ap_gen, hloop, hN0, hfail (N - 1)]
  have hgaps : delayGaps (ota_task_gen N D env) = List.replicate (N - 1) D := by
    rw [htask]
    exact delayGaps_allFail env.connect D
      [Event.printLine exceededMsg, Event.printLine wifiApFailedMsg,
        Event.assertFail] (by decide) N
  refine ⟨?_, hgaps, ?_, ?_, ?_, ?_⟩
  · rw [htask]
    have h1 := countAttempts_failTrace env.connect D N 0
    simp only [countAttempts, List.countP_cons, List.countP_append] at h1 ⊢
    simp [h1]
  · intro g hg
    rw [hgaps] at hg
    rw [List.eq_of_mem_replicate hg]
  · rw [htask]
    simp
  · rw [htask]
    simp [finalState]
  · rw [htask]
    have hassoc : Event.cyWcmInitCall ::
        (failTrace env.connect D 0 N ++
          [Event.printLine exceededMsg, Event.printLine wifiApFailedMsg,
            Event.assertFail]) =
        (Event.cyWcmInitCall :: failTrace env.connect D 0 N ++
          [Event.printLine exceededMsg]) ++
          Event.printLine wifiApFailedMsg :: Event.assertFail :: [] := by
      simp
    rw [hassoc]
    have hassert : Event.assertFail ∉
        Event.cyWcmInitCall :: failTrace env.connect D 0 N ++
          [Event.printLine exceededMsg] := by
      intro hmem
      simp only [List.cons_append, List.mem_cons, List.mem_append,
        List.mem_singleton] at hmem
      rcases hmem with hmem | hmem | hmem
      · exact absurd hmem (by simp)
      · have := failTrace_events env.connect D N 0 Event.assertFail hmem
        simp [isWifiEvent] at this
      · exact absurd hmem (by simp)
    exact diagBefore_append wifiApFailedMsg [] _ hassert none

/-- Witness for C1: bound 3, delay 500, every attempt failing with 7. -/
theorem claim_C1_witness :
    countAttempts (ota_task_gen 3 500 envAllFail) = 3 ∧
    delayGaps (ota_task_gen 3 500 envAllFail) = List.replicate (3 - 1) 500 ∧
    (∀ g ∈ delayGaps (ota_task_gen 3 500 envAllFail), 500 ≤ g) ∧
    Event.printLine exceededMsg ∈ ota_task_gen 3 500 envAllFail ∧
    finalState (ota_task_gen 3 500 envAllFail) = SeqState.HALTED ∧
    haltDiagnostic (ota_task_gen 3 500 envAllFail) = some wifiApFailedMsg :=
  claim_C1 3 500 envAllFail (by decide)
    (fun k => by simp [envAllFail, CY_RSLT_SUCCESS])

/-- C2: if attempts `0, ..., m-1` fail and attempt `m < N` succeeds,
`connect_to_wifi_ap` makes exactly `m + 1` attempts and returns the
success result, and the sequencer does not halt at the network-join
stage: the join code never asserts, and `ota_task` goes on to invoke
the next stage (`IotSdk_Init`). -/
theorem claim_C2 (N D : Nat) (env : Env) (m : Nat) (hm : m < N)
    (hbefore : ∀ j, j < m → env.connect j ≠ CY_RSLT_SUCCESS)
    (hsucc : env.connect m = CY_RSLT_SUCCESS) :
    wifiResult N D env = CY_RSLT_SUCCESS ∧
    countAttempts
      (connect_to_wifi_ap_gen N D env.wcmInitResult env.connect).2 = m + 1 ∧
    Event.assertFail ∉
      (connect_to_wifi_ap_gen N D env.wcmInitResult env.connect).2 ∧
    ota_task_gen N D env =
      (connect_to_wifi_ap_gen N D env.wcmInitResult env.connect).2 ++
        Event.iotSdkInitCall :: afterSdkInit env := by
  have hloop := wcmConnectLoop_success env.connect D m hsucc N 0 CY_RSLT_SUCCESS
    (Nat.zero_le m) (by omega) (fun j _ hj2 => hbefore j hj2)
  have hw1 : wifiResult N D env = CY_RSLT_SUCCESS := by
    simp [wifiResult, connect_to_wifi_ap_gen, hloop]
  refine ⟨hw1, ?_, not_mem_wifi_trace N D env.wcmInitResult env.connect
    Event.assertFail rfl, ?_⟩
  · rw [show (connect_to_wifi_ap_gen N D env.wcmInitResult env.connect).2 =
      Event.cyWcmInitCall :: (failTrace env.connect D 0 (m - 0) ++
        [Event.connectApCall m, Event.printLine wifiConnectedMsg]) by
        simp [connect_to_wifi_ap_gen, hloop]]
    have h1 := countAttempts_failTrace env.connect D m 0
    simp only [countAttempts, List.countP_cons, List.countP_append] at h1 ⊢
    simp [h1]
  · have hcond : ¬((connect_to_wifi_ap_gen N D env.wcmInitResult env.connect).1 ≠
        CY_RSLT_SUCCESS) := by
      simp only [wifiResult] at hw1
      simp [hw1]
    simp only [ota_task_gen]
    rw [if_neg hcond]

/-- Witness for C2: bound 3, delay 500, success on the third attempt. -/
theorem claim_C2_witness :
    wifiResult 3 500 envThirdOk = CY_RSLT_SUCCESS ∧
    countAttempts
      (connect_to_wifi_ap_gen 3 500 envThirdOk.wcmInitResult
        envThirdOk.connect).2 = 2 + 1 ∧
    Event.assertFail ∉
      (connect_to_wifi_ap_gen 3 500 envThirdOk.wcmInitResult
        envThirdOk.connect).2 ∧
    ota_task_gen 3 500 envThirdOk =
      (connect_to_wifi_ap_gen 3 500 envThirdOk.wcmInitResult
        envThirdOk.connect).2 ++
        Event.iotSdkInitCall :: afterSdkInit envThirdOk :=
  claim_C2 3 500 envThirdOk 2 (by decide)
    (fun j hj => by simp [envThirdOk, hj, CY_RSLT_SUCCESS])
    (by simp [envThirdOk, CY_RSLT_SUCCESS])

/-- C3: stage ordering of `ota_task` — each stage call occurs in the
trace exactly when all earlier stages reported success, and a
`CY_ASSERT(0)` occurs exactly when some stage failed (so after any
failure no later stage is ever attempted). -/
theorem claim_C3 (N D : Nat) (env : Env) :
    (Event.iotSdkInitCall ∈ ota_task_gen N D env ↔
      wifiResult N D env = CY_RSLT_SUCCESS) ∧
    (Event.secureSocketsInitCall ∈ ota_task_gen N D env ↔
      wifiResult N D env = CY_RSLT_SUCCESS ∧ env.iotSdkInitOk = true) ∧
    (Event.mqttInitCall ∈ ota_task_gen N D env ↔
      wifiResult N D env = CY_RSLT_SUCCESS ∧ env.iotSdkInitOk = true ∧
        env.socketsInitResult = IOT_NETWORK_SUCCESS) ∧
    (Event.agentStartCall ota_agent_params ∈ ota_task_gen N D env ↔
      wifiResult N D env = CY_RSLT_SUCCESS ∧ env.iotSdkInitOk = true ∧
        env.socketsInitResult = IOT_NETWORK_SUCCESS ∧
        env.mqttInitResult = IOT_MQTT_SUCCESS) ∧
    (Event.assertFail ∈ ota_task_gen N D env ↔
      ¬(wifiResult N D env = CY_RSLT_SUCCESS ∧ env.iotSdkInitOk = true ∧
        env.socketsInitResult = IOT_NETWORK_SUCCESS ∧
        env.mqttInitResult = IOT_MQTT_SUCCESS ∧
        env.agentStartResult = CY_RSLT_SUCCESS)) := by
  have hna : Event.iotSdkInitCall ∉
      (connect_to_wifi_ap_gen N D env.wcmInitResult env.connect).2 :=
    not_mem_wifi_trace N D _ _ _ rfl
  have hnb : Event.secureSocketsInitCall ∉
      (connect_to_wifi_ap_gen N D env.wcmInitResult env.connect).2 :=
    not_mem_wifi_trace N D _ _ _ rfl
  have hnc : Event.mqttInitCall ∉
      (connect_to_wifi_ap_gen N D env.wcmInitResult env.connect).2 :=
    not_mem_wifi_trace N D _ _ _ rfl
  have hnd : Event.agentStartCall ota_agent_params ∉
      (connect_to_wifi_ap_gen N D env.wcmInitResult env.connect).2 :=
    not_mem_wifi_trace N D _ _ _ rfl
  have hne : Event.assertFail ∉
      (connect_to_wifi_ap_gen N D env.wcmInitResult env.connect).2 :=
    not_mem_wifi_trace N D _ _ _ rfl
  by_cases h1 : (connect_to_wifi_ap_gen N D env.wcmInitResult env.connect).1 =
      CY_RSLT_SUCCESS <;>
  by_cases h2 : env.iotSdkInitOk = true <;>
  by_cases h3 : env.socketsInitResult = IOT_NETWORK_SUCCESS <;>
  by_cases h4 : env.mqttInitResult = IOT_MQTT_SUCCESS <;>
  by_cases h5 : env.agentStartResult = CY_RSLT_SUCCESS <;>
  simp [ota_task_gen, wifiResult, afterSdkInit, afterSocketsInit,
    afterMqttInit, afterAgentStart, h1, h2, h3, h4, h5, hna, hnb, hnc,
    hnd, hne]

/-- C4: on every fatal condition the task prints one diagnostic line
and then hits `CY_ASSERT(0)`: the trace is an assert-free prefix
followed by exactly that diagnostic and the (only) assert, it never
reaches `vTaskSuspend` (no graceful shutdown, nothing returned to a
caller), and the final state is `HALTED`. -/
theorem claim_C4 (N D : Nat) (env : Env) (hfatal : fatalCondition N D env) :
    (∃ pre d, ota_task_gen N D env =
      pre ++ [Event.printLine d, Event.assertFail] ∧
      Event.assertFail ∉ pre) ∧
    List.count Event.assertFail (ota_task_gen N D env) = 1 ∧
    Event.taskSuspend ∉ ota_task_gen N D env ∧
    finalState (ota_task_gen N D env) = SeqState.HALTED := by
  have hwa : Event.assertFail ∉
      (connect_to_wifi_ap_gen N D env.wcmInitResult env.connect).2 :=
    not_mem_wifi_trace N D _ _ _ rfl
  have hws : Event.taskSuspend ∉
      (connect_to_wifi_ap_gen N D env.wcmInitResult env.connect).2 :=
    not_mem_wifi_trace N D _ _ _ rfl
  by_cases h1 : (connect_to_wifi_ap_gen N D env.wcmInitResult env.connect).1 =
      CY_RSLT_SUCCESS
  · by_cases h2 : env.iotSdkInitOk = true
    · by_cases h3 : env.socketsInitResult = IOT_NETWORK_SUCCESS
      · by_cases h4 : env.mqttInitResult = IOT_MQTT_SUCCESS
        · by_cases h5 : env.agentStartResult = CY_RSLT_SUCCESS
          · exfalso
            simp only [fatalCondition, wifiResult] at hfatal
            rcases hfatal with h | h | h | h | h
            · exact h h1
            · rw [h2] at h
              simp at h
            · exact h h3
            · exact h h4
            · exact h h5
          · exact halted_conclusions _ _
              [Event.iotSdkInitCall, Event.secureSocketsInitCall,
                Event.mqttInitCall, Event.agentStartCall ota_agent_params]
              agentFailedMsg
              (by simp [ota_task_gen, afterSdkInit, afterSocketsInit,
                afterMqttInit, afterAgentStart, h1, h2, h3, h4, h5])
              hwa (by decide) hws (by decide)
        · exact halted_conclusions _ _
            [Event.iotSdkInitCall, Event.secureSocketsInitCall,
              Event.mqttInitCall] mqttFailedMsg
            (by simp [ota_task_gen, afterSdkInit, afterSocketsInit,
              afterMqttInit, h1, h2, h3, h4])
            hwa (by decide) hws (by decide)
      · exact halted_conclusions _ _
          [Event.iotSdkInitCall, Event.secureSocketsInitCall] socketsFailedMsg
          (by simp [ota_task_gen, afterSdkInit, afterSocketsInit, h1, h2, h3])
          hwa (by decide) hws (by decide)
    · exact halted_conclusions _ _ [Event.iotSdkInitCall] iotSdkFailedMsg
        (by simp [ota_task_gen, afterSdkInit, h1, h2])
        hwa (by decide) hws (by decide)
  · exact halted_conclusions _ _ [] wifiApFailedMsg
      (by simp [ota_task_gen, h1]) hwa (by decide) hws (by decide)

/-- Witness for C4: the compiled-in bound with every attempt failing. -/
theorem claim_C4_witness :
    (∃ pre d, ota_task_gen 10 500 envAllFail =
      pre ++ [Event.printLine d, Event.assertFail] ∧
      Event.assertFail ∉ pre) ∧
    List.count Event.assertFail (ota_task_gen 10 500 envAllFail) = 1 ∧
    Event.taskSuspend ∉ ota_task_gen 10 500 envAllFail ∧
    finalState (ota_task_gen 10 500 envAllFail) = SeqState.HALTED :=
  claim_C4 10 500 envAllFail (by unfold fatalCondition; exact Or.inl (by decide))

/-- C5: when the join and every init stage succeed, the sequencer ends
`AGENT_ACTIVE`, the event sink is registered with the agent exactly
once (one `cy_ota_agent_start` call carrying `ota_agent_params`, whose
`cb_func` is `ota_callback`), nothing asserts, and the bring-up task
performs, as its very last action, its own suspension. -/
theorem claim_C5 (N D : Nat) (env : Env)
    (hwifi : wifiResult N D env = CY_RSLT_SUCCESS)
    (hsdk : env.iotSdkInitOk = true)
    (hsock : env.socketsInitResult = IOT_NETWORK_SUCCESS)
    (hmqtt : env.mqttInitResult = IOT_MQTT_SUCCESS)
    (hagent : env.agentStartResult = CY_RSLT_SUCCESS) :
    finalState (ota_task_gen N D env) = SeqState.AGENT_ACTIVE ∧
    List.count (Event.agentStartCall ota_agent_params)
      (ota_task_gen N D env) = 1 ∧
    Event.assertFail ∉ ota_task_gen N D env ∧
    ∃ pre, ota_task_gen N D env = pre ++ [Event.taskSuspend] ∧
      Event.taskSuspend ∉ pre := by
  have hwifi' : (connect_to_wifi_ap_gen N D env.wcmInitResult env.connect).1 =
      CY_RSLT_SUCCESS := hwifi
  have htr : ota_task_gen N D env =
      (connect_to_wifi_ap_gen N D env.wcmInitResult env.connect).2 ++
        [Event.iotSdkInitCall, Event.secureSocketsInitCall,
          Event.mqttInitCall, Event.agentStartCall ota_agent_params,
          Event.taskSuspend] := by
    simp [ota_task_gen, afterSdkInit, afterSocketsInit, afterMqttInit,
      afterAgentStart, hwifi', hsdk, hsock, hmqtt, hagent]
  have hwa : Event.assertFail ∉
      (connect_to_wifi_ap_gen N D env.wcmInitResult env.connect).2 :=
    not_mem_wifi_trace N D _ _ _ rfl
  have hws : Event.taskSuspend ∉
      (connect_to_wifi_ap_gen N D env.wcmInitResult env.connect).2 :=
    not_mem_wifi_trace N D _ _ _ rfl
  have hwagent : Event.agentStartCall ota_agent_params ∉
      (connect_to_wifi_ap_gen N D env.wcmInitResult env.connect).2 :=
    not_mem_wifi_trace N D _ _ _ rfl
  refine ⟨?_, ?_, ?_,
    ⟨(connect_to_wifi_ap_gen N D env.wcmInitResult env.connect).2 ++
      [Event.iotSdkInitCall, Event.secureSocketsInitCall,
        Event.mqttInitCall, Event.agentStartCall ota_agent_params],
      ?_, ?_⟩⟩
  · rw [htr]
    simp [finalState, List.mem_append, hwa]
  · rw [htr, List.count_append, List.count_eq_zero.mpr hwagent]
    simp [List.count_cons]
  · rw [htr]
    simp [List.mem_append, hwa]
  · rw [htr]
    simp
  · simp [List.mem_append, hws]

/-- Witness for C5: the compiled-in bound, everything succeeding. -/
theorem claim_C5_witness :
    finalState (ota_task_gen 10 500 envAllOk) = SeqState.AGENT_ACTIVE ∧
    List.count (Event.agentStartCall ota_agent_params)
      (ota_task_gen 10 500 envAllOk) = 1 ∧
    Event.assertFail ∉ ota_task_gen 10 500 envAllOk ∧
    ∃ pre, ota_task_gen 10 500 envAllOk = pre ++ [Event.taskSuspend] ∧
      Event.taskSuspend ∉ pre :=
  claim_C5 10 500 envAllOk (by decide) (by decide) (by decide) (by decide)
    (by decide)

/-- The modelled reason lookup is non-empty for every code, including
codes outside the known variant set. -/
theorem reason_string_nonempty (r : cy_ota_cb_reason_t) :
    cy_ota_get_callback_reason_string r ≠ "" := by
  unfold cy_ota_get_callback_reason_string
  split_ifs <;> decide

/-- The modelled state lookup is non-empty for every code. -/
theorem state_string_nonempty (st : cy_ota_agent_state_t) :
    cy_ota_get_state_string st ≠ "" := by
  unfold cy_ota_get_state_string
  split_ifs <;> decide

/-- The modelled error lookup is non-empty for every code. -/
theorem error_string_nonempty (e : cy_rslt_t) :
    cy_ota_get_error_string e ≠ "" := by
  unfold cy_ota_get_error_string
  split_ifs <;> decide

/-- A middle chunk of a concatenation is contained in it. -/
theorem containsStr_suffix (pre mid : String) : containsStr (pre ++ mid) mid :=
  ⟨pre, "", by simp⟩

/-- Containment survives appending on the right. -/
theorem containsStr_append_right (s t m : String) (h : containsStr s m) :
    containsStr (s ++ t) m := by
  obtain ⟨l, r, hh⟩ := h
  exact ⟨l, r ++ t, by rw [hh]; simp [String.append_assoc]⟩

/-- C6: on every invocation the event sink resolves the handle from the
opaque context, queries the agent state through the accessor, and emits
exactly one formatted record — one line containing the handle identity,
the reason code and its looked-up text, the value, the state code and
its looked-up text, and the text of the last recorded error. -/
theorem claim_C6 (w : AgentWorld) (reason value : Nat) (arg : OpaqueArg) :
    ∃ s : String, (ota_callback w reason value arg).2 = [Event.printLine s] ∧
      containsStr s (toString arg.ota_context) ∧
      containsStr s (toString reason) ∧
      containsStr s (cy_ota_get_callback_reason_string reason) ∧
      containsStr s (toString value) ∧
      containsStr s (toString (cy_ota_get_state w arg.ota_context)) ∧
      containsStr s
        (cy_ota_get_state_string (cy_ota_get_state w arg.ota_context)) ∧
      containsStr s (cy_ota_get_error_string (cy_ota_last_error w)) := by
  refine ⟨_, rfl, ?_, ?_, ?_, ?_, ?_, ?_, ?_⟩ <;>
    repeat (first
      | exact containsStr_suffix _ _
      | apply containsStr_append_right)

/-- C7: for every reason code — including codes outside the known
variant set — the descriptors of the sink are non-empty, it emits exactly
one line, performs no delay, no assert and no suspension (never blocks
or aborts), and leaves the agent-visible world exactly as it found it
(never mutates state reachable through the handle). -/
theorem claim_C7 (w : AgentWorld) (reason value : Nat) (arg : OpaqueArg) :
    (ota_callback w reason value arg).1 = w ∧
    cy_ota_get_callback_reason_string reason ≠ "" ∧
    cy_ota_get_state_string (cy_ota_get_state w arg.ota_context) ≠ "" ∧
    cy_ota_get_error_string (cy_ota_last_error w) ≠ "" ∧
    (∃ s, (ota_callback w reason value arg).2 = [Event.printLine s]) ∧
    Event.assertFail ∉ (ota_callback w reason value arg).2 ∧
    (∀ d, Event.delayMs d ∉ (ota_callback w reason value arg).2) ∧
    Event.taskSuspend ∉ (ota_callback w reason value arg).2 := by
  refine ⟨rfl, reason_string_nonempty reason, state_string_nonempty _,
    error_string_nonempty _, ⟨_, rfl⟩, by simp [ota_callback],
    fun d => by simp [ota_callback], by simp [ota_callback]⟩

end OtaMqtt
